import Mathlib

/-!
# Verification of the batch scoring-and-publishing pipeline

Shallow embedding of the inference pipeline in
`sagemaker-pipelines/src/inference/app/` (`score_to_kafka.py`, `kafka_io.py`,
`model_io.py`).  DataFrames are modelled as ordered lists of named columns over
a cell type with exact rationals standing for the floating point numbers;
fallible Python code (raising exceptions) is modelled with `Except`.
-/

/-- A cell of a pandas DataFrame: a numeric value, a text value, or a missing
value (`None`/`NaN`). -/
inductive CellValue where
  | num (q : ℚ)
  | str (s : String)
  | null
deriving DecidableEq, Repr

/-- Equality of modelled exception outcomes is decidable (used to evaluate
the embedding on concrete inputs). -/
instance {ε α : Type} [DecidableEq ε] [DecidableEq α] : DecidableEq (Except ε α) :=
  fun a b =>
    match a, b with
    | .error e1, .error e2 => decidable_of_iff (e1 = e2) (by simp)
    | .error _, .ok _ => isFalse (fun hc => Except.noConfusion hc)
    | .ok _, .error _ => isFalse (fun hc => Except.noConfusion hc)
    | .ok v1, .ok v2 => decidable_of_iff (v1 = v2) (by simp)

/-- `True` exactly on missing values (what `isnull` reports). -/
def isNullCell : CellValue → Bool
  | .null => true
  | _ => false

/-- One DataFrame column.  `numeric` is the pandas dtype classification used by
`select_dtypes(include=[np.number])` (a numeric dtype column holds only `num`
and `null` cells). -/
structure Column where
  name : String
  numeric : Bool
  entries : List CellValue
deriving DecidableEq, Repr

/-- A pandas DataFrame: ordered sequence of named columns. -/
structure DataFrame where
  cols : List Column
deriving DecidableEq, Repr

/-- Number of rows (length of the columns, matching the index length). -/
def DataFrame.nrows (df : DataFrame) : ℕ :=
  (df.cols.head?.map (fun c => c.entries.length)).getD 0

/-- Column lookup by label: `df[f]`. -/
def findCol (df : DataFrame) (f : String) : Option Column :=
  df.cols.find? (fun c => c.name == f)

/-- `df.isnull().any().any()`. -/
def DataFrame.anyNull (df : DataFrame) : Bool :=
  df.cols.any (fun c => c.entries.any isNullCell)

/-- The column created by `df[feature] = 0` for a missing expected feature
(score_to_kafka.py line 189): an integer column of zeros. -/
def zeroCol (f : String) (n : ℕ) : Column :=
  ⟨f, true, List.replicate n (.num 0)⟩

/-- Alignment step of `preprocess_data` (lines 184-192): every expected
feature missing from the frame is added with fill value 0, then
`df = df[expected_features]` selects exactly the expected features in order. -/
def alignColumns (fs : List String) (df : DataFrame) : DataFrame :=
  ⟨fs.map (fun f => (findCol df f).getD (zeroCol f df.nrows))⟩

/-- The numeric values of a column (what `median()` averages: non-null
entries of a numeric dtype column). -/
def colNums (c : Column) : List ℚ :=
  c.entries.filterMap (fun v => match v with | .num q => some q | _ => none)

/-- Insert into a sorted list (helper for the sort behind `median`). -/
def insertSorted (x : ℚ) : List ℚ → List ℚ
  | [] => [x]
  | y :: ys => if x ≤ y then x :: y :: ys else y :: insertSorted x ys

/-- Sort a list of rationals ascending. -/
def sortQ : List ℚ → List ℚ
  | [] => []
  | x :: xs => insertSorted x (sortQ xs)

/-- `Series.median()` over the non-null values: middle element of the sorted
values, or the mean of the two middle elements; `none` (NaN) when there are no
values at all. -/
def medianQ (l : List ℚ) : Option ℚ :=
  if (sortQ l).length = 0 then none
  else if (sortQ l).length % 2 = 1 then (sortQ l)[(sortQ l).length / 2]?
  else match (sortQ l)[(sortQ l).length / 2 - 1]?, (sortQ l)[(sortQ l).length / 2]? with
    | some a, some b => some ((a + b) / 2)
    | _, _ => none

/-- `fillna`: replace a missing cell by the fill value, keep the rest. -/
def fillCell (fill : CellValue) (v : CellValue) : CellValue :=
  if isNullCell v then fill else v

/-- Missing-value handling of one column (lines 197-201): numeric dtype
columns are filled with the column median (`fillna` with a NaN median — an
all-null numeric column — is a no-op), other columns with `'Unknown'`. -/
def fillColumn (c : Column) : Column :=
  if c.numeric then
    match medianQ (colNums c) with
    | some m => { c with entries := c.entries.map (fillCell (.num m)) }
    | none => c
  else { c with entries := c.entries.map (fillCell (.str "Unknown")) }

/-- Missing-value step of `preprocess_data` (lines 195-201): filling happens
only when the frame has any missing value at all. -/
def fillMissing (df : DataFrame) : DataFrame :=
  if df.anyNull then ⟨df.cols.map fillColumn⟩ else df

/-- `preprocess_data` (score_to_kafka.py lines 174-204).  `F` is what
`model_loader.get_expected_features()` returned; `if expected_features:` skips
alignment both for `None` and for an empty list. -/
def preprocessData (F : Option (List String)) (df : DataFrame) : DataFrame :=
  let aligned :=
    match F with
    | some fs => if fs.isEmpty then df else alignColumns fs df
    | none => df
  fillMissing aligned

/-! ## Prediction engine (`generate_predictions`, score_to_kafka.py 210-251) -/

/-- `np.max(probabilities, axis=1)` for one row. -/
def rowMax : List ℚ → Option ℚ
  | [] => none
  | x :: xs => some (xs.foldl max x)

/-- The probability-derived fields `generate_predictions` attaches to one
result row. -/
structure ProbOutputs where
  prediction_probability : Option ℚ
  prediction_confidence : Option ℚ
  high_confidence : Option Bool
  above_threshold : Option Bool
  class_probs : List (String × ℚ)
deriving DecidableEq, Repr

/-- Probability handling of `generate_predictions` for one row (lines
229-244).  `probs` is the row of `predict_proba` output (`none` when the model
does not support probabilities).  With exactly two columns (binary case) the
probability of column index 1, the row maximum as confidence and the two
boolean flags are set; otherwise only the confidence and — for each known
class label — a `prob_<label>` column (`classNames.zip p` pairs label `i` with
`probabilities[:, i]`). -/
def generateRowProbFields (probs : Option (List ℚ)) (classNames : Option (List String))
    (threshold : ℚ) : ProbOutputs :=
  match probs with
  | none => ⟨none, none, none, none, []⟩
  | some p =>
    if p.length = 2 then
      { prediction_probability := p[1]?
        prediction_confidence := rowMax p
        high_confidence := (rowMax p).map (fun c => decide (c > (8 : ℚ) / 10))
        above_threshold := p[1]?.map (fun x => decide (x > threshold))
        class_probs := [] }
    else
      { prediction_probability := none
        prediction_confidence := rowMax p
        high_confidence := none
        above_threshold := none
        class_probs := (classNames.getD []).zip p }

/-- Default of the `--prediction_threshold` argument (parse_arguments,
line 55-56). -/
def predictionThresholdDefault : ℚ := 5 / 10

/-- Default of the `--max_records_per_batch` argument (line 63-64). -/
def maxRecordsPerBatchDefault : ℕ := 10000

/-! ## Model resolution (`MLflowModelLoader.load_model`, model_io.py 54-84) -/

/-- The registry URI `load_model` resolves (model_io.py lines 57-64): an
explicit version takes precedence over the configured stage. -/
def modelUriForLoad (model_name model_stage : String) (model_version : Option String) : String :=
  match model_version with
  | some v => "models:/" ++ model_name ++ "/" ++ v
  | none => "models:/" ++ model_name ++ "/" ++ model_stage

/-- Parameters accepted by `MLflowModelLoader.__init__` (model_io.py
lines 20-21). -/
def mlflowModelLoaderParams : List String := ["model_name", "model_stage", "model_version"]

/-- Parameters of `MLflowModelLoader.__init__` without a default value. -/
def mlflowModelLoaderRequired : List String := ["model_name"]

/-- Keyword arguments `main` passes to the `MLflowModelLoader` constructor
(score_to_kafka.py lines 395-398). -/
def scoreMainLoaderKwargs : List String := ["tracking_uri", "model_uri"]

/-- Python call semantics for keyword arguments: the call raises `TypeError`
unless every keyword names a parameter and every parameter without a default
is supplied. -/
def callAccepts (params required kwargs : List String) : Bool :=
  kwargs.all (fun k => params.contains k) && required.all (fun r => kwargs.contains r)

/-! ## Kafka message construction (`batch_process_and_send_to_kafka`,
score_to_kafka.py 253-336) -/

/-- One result row as handed to the Kafka loop: a pandas Series, i.e. an
ordered label-to-value mapping. -/
abbrev Row := List (String × CellValue)

/-- `row.get(k)`: label lookup without raising. -/
def rowGet (row : Row) (k : String) : Option CellValue :=
  (row.find? (fun kv => kv.1 == k)).map (fun kv => kv.2)

/-- `row[k]`: label lookup raising `KeyError` when absent. -/
def rowIndex (row : Row) (k : String) : Except Unit CellValue :=
  match rowGet row k with
  | some v => .ok v
  | none => .error ()

/-- `float(value)` (and `int(value)` on integral values) as used on the
prediction and probability cells: numbers convert to themselves, `NaN`
converts to `NaN`, non-numeric text raises `ValueError`. -/
def floatConv : CellValue → Except Unit CellValue
  | .num q => .ok (.num q)
  | .null => .ok .null
  | .str _ => .error ()

/-- Optional numeric message field: `if k in row: message[k] = float(row[k])`. -/
def optFloatField (row : Row) (k : String) : Except Unit (Option CellValue) :=
  match rowGet row k with
  | none => .ok none
  | some v => (floatConv v).map some

/-- The labels dropped from a row to obtain the `features` payload
(score_to_kafka.py lines 281-284). -/
def messageDropLabels : List String :=
  ["prediction", "prediction_timestamp", "model_name",
   "model_version", "model_stage", "source_file", "ingestion_time"]

/-- `Series.drop(labels)`: removes the labelled entries, raising `KeyError`
when any label is absent from the index. -/
def seriesDrop (row : Row) (labels : List String) : Except Unit Row :=
  if labels.all (fun l => (rowGet row l).isSome) then
    .ok (row.filter (fun kv => !(labels.contains kv.1)))
  else .error ()

/-- A message built for one prediction record (lines 275-302). -/
structure KafkaMessage where
  timestamp : CellValue
  model_name : CellValue
  model_version : CellValue
  model_stage : CellValue
  prediction : CellValue
  features : List (String × CellValue)
  prediction_probability : Option CellValue
  prediction_confidence : Option CellValue
  high_confidence : Option CellValue
  above_threshold : Option CellValue
  audit_source_file : CellValue
  audit_ingestion_time : Option CellValue
  audit_processing_batch : ℕ
deriving DecidableEq, Repr

/-- The per-record message construction in the batch loop (lines 273-304),
including the failure modes caught by the surrounding `try`: a `KeyError`
from a direct lookup or from `Series.drop`, or a `ValueError` from a numeric
conversion.  `batchIdx` is `i // max_records_per_batch + 1`. -/
def buildKafkaMessage (batchIdx : ℕ) (row : Row) : Except Unit KafkaMessage := do
  let ts ← rowIndex row "prediction_timestamp"
  let mname ← rowIndex row "model_name"
  let mver ← rowIndex row "model_version"
  let mstage ← rowIndex row "model_stage"
  let pv ← rowIndex row "prediction"
  let pred ← floatConv pv
  let feats ← seriesDrop row messageDropLabels
  let pprob ← optFloatField row "prediction_probability"
  let pconf ← optFloatField row "prediction_confidence"
  .ok { timestamp := ts
        model_name := mname
        model_version := mver
        model_stage := mstage
        prediction := pred
        features := feats
        prediction_probability := pprob
        prediction_confidence := pconf
        high_confidence := rowGet row "high_confidence"
        above_threshold := rowGet row "above_threshold"
        audit_source_file := (rowGet row "source_file").getD (.str "unknown")
        audit_ingestion_time := rowGet row "ingestion_time"
        audit_processing_batch := batchIdx }

/-! ## Batch partitioning (the loop `for i in range(0, total_records,
max_records_per_batch)` with `batch_df = predictions_df.iloc[i:batch_end]`,
score_to_kafka.py lines 264-266) -/

/-- Fuel-driven worker for `chunks`; the fuel is an upper bound on the list
length, so the `fuel = 0` branch with a nonempty list is never reached for
batch bound `B ≥ 1`. -/
def chunksGo (B : ℕ) : ℕ → List α → List (List α)
  | _, [] => []
  | 0, _ :: _ => []
  | fuel + 1, x :: xs => (x :: xs).take B :: chunksGo B fuel ((x :: xs).drop B)

/-- Contiguous batches of at most `B` records, in order: the slices
`predictions_df.iloc[i:min(i+B, total)]` for `i = 0, B, 2B, ...`.  For `B = 0`
Python's `range` raises, so the value there is irrelevant; we return `[]`. -/
def chunks (B : ℕ) (l : List α) : List (List α) :=
  if B = 0 then [] else chunksGo B l.length l

/-- The summary dict returned by `batch_process_and_send_to_kafka`
(lines 323-329). -/
structure SendResults where
  total_predictions : ℕ
  successful_sends : ℕ
  failed_sends : ℕ
  success_rate : ℚ
  batches_processed : ℕ
deriving DecidableEq, Repr

/-- `KafkaProducer.send_batch` (kafka_io.py lines 168-214) under a transport
outcome `deliver`: each message is sent independently inside its own `try`,
and the function returns how many sends were handed off successfully. -/
def sendBatchCount (deliver : KafkaMessage → Bool) (msgs : List KafkaMessage) : ℕ :=
  (msgs.filter deliver).length

/-- `batch_process_and_send_to_kafka` (score_to_kafka.py lines 253-336):
slice the records into batches; inside a batch, build each record's message in
its own `try` (a failure is logged, increments the error tally and the record
is skipped); hand the surviving messages to `send_batch`; accumulate the
per-batch send counts.  `build` receives `i // max_records_per_batch + 1`, the
1-based batch number stored in the audit payload. -/
def batchProcessAndSendToKafka (build : ℕ → Row → Except Unit KafkaMessage)
    (deliver : KafkaMessage → Bool) (B : ℕ) (rows : List Row) : SendResults :=
  let batches := chunks B rows
  let success := (batches.enum.map (fun kb =>
      sendBatchCount deliver (kb.2.filterMap (fun r => (build (kb.1 + 1) r).toOption)))).sum
  let errors := (batches.enum.map (fun kb =>
      kb.2.length - (kb.2.filterMap (fun r => (build (kb.1 + 1) r).toOption)).length)).sum
  { total_predictions := rows.length
    successful_sends := success
    failed_sends := errors
    success_rate := if rows.length > 0 then (success : ℚ) / (rows.length : ℚ) else 0
    batches_processed := (rows.length + B - 1) / B }

/-! ## Producer security configuration (`KafkaProducer._setup_producer`,
kafka_io.py lines 67-123, and `get_kafka_credentials`, lines 17-41) -/

/-- The security-relevant part of the producer configuration. -/
inductive SecurityConfig where
  | saslSslPlain (username password : String) (sslCaLocation : Option String)
  | saslSslIam
  | plaintext
deriving DecidableEq, Repr

/-- Dict lookup on the credentials dict. -/
def credsLookup (creds : List (String × String)) (k : String) : Option String :=
  (creds.find? (fun kv => kv.1 == k)).map (fun kv => kv.2)

/-- Whether `sub` occurs as a leading run of `s` (helper for Python's
`sub in s`). -/
def headMatches : List Char → List Char → Bool
  | [], _ => true
  | _ :: _, [] => false
  | a :: as, b :: bs => a == b && headMatches as bs

/-- Whether `sub` occurs contiguously anywhere in `s`. -/
def hasSubList (s sub : List Char) : Bool :=
  match s with
  | [] => sub.isEmpty
  | _ :: rest => headMatches sub s || hasSubList rest sub

/-- Python's substring test `sub in s`. -/
def containsSubstr (s sub : String) : Bool :=
  hasSubList s.toList sub.toList

/-- The authentication choice in `_setup_producer` (lines 84-114):
`if self.credentials and 'username' in self.credentials:` selects SASL/PLAIN
(reading `credentials['password']` unguarded — `KeyError` when absent);
`elif 'amazonaws.com' in self.bootstrap_servers:` selects AWS MSK IAM;
else plaintext. -/
def setupProducerSecurity (creds : List (String × String)) (bootstrap : String) :
    Except Unit SecurityConfig :=
  if creds ≠ [] ∧ (credsLookup creds "username").isSome then
    match credsLookup creds "password" with
    | some pw =>
        .ok (.saslSslPlain ((credsLookup creds "username").getD "") pw
          (credsLookup creds "ssl_ca_location"))
    | none => .error ()
  else if containsSubstr bootstrap "amazonaws.com" then .ok .saslSslIam
  else .ok .plaintext

/-- The optional fields of the secret JSON blob. -/
structure SecretBlob where
  username : Option String
  password : Option String
  ssl_ca_location : Option String
deriving DecidableEq, Repr

/-- `get_kafka_credentials` (kafka_io.py lines 17-41).  `fetch` is the
outcome of the Secrets Manager call: an exception, a response without
`SecretString`, or the parsed blob.  With a blob, the dict always carries all
three keys, with `''` defaults for username/password. -/
def getKafkaCredentials (secretArn : Option String)
    (fetch : Except Unit (Option SecretBlob)) : List (String × String) :=
  match secretArn with
  | none => []
  | some _ =>
    match fetch with
    | .error _ => []
    | .ok none => []
    | .ok (some blob) =>
        [("username", blob.username.getD ""),
         ("password", blob.password.getD ""),
         ("ssl_ca_location", blob.ssl_ca_location.getD "/etc/ssl/certs/ca-certificates.crt")]

/-- Modelled from the spec: the Credentials "provide explicit
username/password", read as non-empty username and password values.  Used only
to compare the spec's authentication trichotomy with the code's. -/
def specProvidesExplicitUserPass (creds : List (String × String)) : Bool :=
  !((credsLookup creds "username").getD "" == "") &&
  !((credsLookup creds "password").getD "" == "")

/-! ## Windowed input loader (`get_s3_input_data_for_window`,
score_to_kafka.py lines 92-172) -/

/-- A listed storage object: key and last-modified timestamp (seconds). -/
structure S3Object where
  key : String
  lastModified : ℤ
deriving DecidableEq, Repr

/-- The time-window and extension filter (lines 123-130). -/
def relevantObjects (objs : List S3Object) (startT endT : ℤ) (fmt : String) :
    List S3Object :=
  objs.filter (fun o =>
    decide (startT ≤ o.lastModified) && decide (o.lastModified ≤ endT)
      && o.key.endsWith ("." ++ fmt))

/-- Provenance tagging (lines 156-157): `df['source_file'] = obj_key;
df['ingestion_time'] = ...isoformat()`. -/
def tagRow (key ingestionTime : String) (row : Row) : Row :=
  row ++ [("source_file", .str key), ("ingestion_time", .str ingestionTime)]

/-- `get_s3_input_data_for_window` (lines 92-172).  `contents` is `none` when
the listing response has no `Contents`; `download` is the per-object
download-and-parse, whose failure propagates and aborts the run.  Zero
matching objects yield an empty frame, not an error. -/
def getS3InputDataForWindow (contents : Option (List S3Object)) (startT endT : ℤ)
    (fmt : String) (download : String → Except Unit (List Row))
    (ingestionTime : String) : Except Unit (List Row) :=
  match contents with
  | none => .ok []
  | some objs =>
    let rel := relevantObjects objs startT endT fmt
    if rel.isEmpty then .ok []
    else do
      let dfs ← rel.mapM (fun o =>
        (download o.key).map (fun rows => rows.map (tagRow o.key ingestionTime)))
      .ok dfs.flatten

/-! ## `main` (score_to_kafka.py lines 382-448) -/

/-- The environment-sourced configuration (lines 35-40). -/
structure Env where
  mlflowTrackingUri : Option String
  inputS3Location : Option String
  kafkaBootstrap : Option String
  kafkaTopic : Option String
deriving DecidableEq, Repr

/-- Python falsiness of an optional environment string (`if not value`):
unset or empty. -/
def isBlank (v : Option String) : Bool := v.getD "" == ""

/-- `validate_environment` (lines 70-82): the required variables whose value
is missing or empty. -/
def missingRequiredVars (e : Env) : List String :=
  (if isBlank e.mlflowTrackingUri then ["MLFLOW_TRACKING_URI"] else [])
  ++ (if isBlank e.inputS3Location then ["INPUT_S3_PREFIX"] else [])
  ++ (if isBlank e.kafkaBootstrap then ["KAFKA_BOOTSTRAP"] else [])
  ++ (if isBlank e.kafkaTopic then ["KAFKA_TOPIC"] else [])

/-- Observable outcome of one `main` invocation: the process exit code,
whether the input loader was ever invoked, and how many records were handed to
the transport. -/
structure RunOutcome where
  exitCode : ℕ
  dataLoadAttempted : Bool
  publishedRecords : ℕ
deriving DecidableEq, Repr

/-- `main` (lines 382-448): validate the environment, construct
`MLflowModelLoader(tracking_uri=..., model_uri=...)` — a call that must match
the constructor's parameter list — then `load_model()`, construct the
producer, load the window of input data, short-circuit with success on an
empty frame, otherwise preprocess/predict (`predict`) and publish
(`send`).  Any exception is caught at the bottom and turned into
`sys.exit(1)`; the empty-frame `return` ends the script with exit code 0. -/
def mainRun (e : Env) (modelLoad : Except Unit Unit)
    (producerSetup : Except Unit SecurityConfig)
    (dataResult : Except Unit (List Row))
    (predict : List Row → Except Unit (List Row))
    (send : List Row → SendResults) : RunOutcome :=
  if missingRequiredVars e ≠ [] then ⟨1, false, 0⟩
  else if !(callAccepts mlflowModelLoaderParams mlflowModelLoaderRequired scoreMainLoaderKwargs)
    then ⟨1, false, 0⟩
  else
    match modelLoad with
    | .error _ => ⟨1, false, 0⟩
    | .ok _ =>
      match producerSetup with
      | .error _ => ⟨1, false, 0⟩
      | .ok _ =>
        match dataResult with
        | .error _ => ⟨1, true, 0⟩
        | .ok rows =>
          if rows.isEmpty then ⟨0, true, 0⟩
          else
            match predict rows with
            | .error _ => ⟨1, true, 0⟩
            | .ok preds => ⟨0, true, (send preds).successful_sends⟩

/-! ## Concrete inputs used by the witnesses and counterexamples -/

/-- Concrete three-record sequence used to witness the batching theorem. -/
def c1Rows : List Row := [[("a", .num 1)], [("a", .num 2)], [("a", .num 3)]]

/-- A record for which every message field is available: its message builds. -/
def c4GoodRow : Row :=
  [("f1", .num 1), ("prediction", .num 0), ("prediction_timestamp", .str "T"),
   ("model_name", .str "poem-model"), ("model_version", .str "1"),
   ("model_stage", .str "Production"), ("source_file", .str "k.parquet"),
   ("ingestion_time", .str "T0")]

/-- A record whose prediction cell is non-numeric text, so the `float()`
conversion during message construction raises. -/
def c4BadRow : Row :=
  [("f1", .num 1), ("prediction", .str "oops"), ("prediction_timestamp", .str "T"),
   ("model_name", .str "poem-model"), ("model_version", .str "1"),
   ("model_stage", .str "Production"), ("source_file", .str "k.parquet"),
   ("ingestion_time", .str "T0")]

/-- 100 records of which exactly one fails serialization. -/
def c4Rows : List Row := List.replicate 99 c4GoodRow ++ [c4BadRow]

/-- An already-aligned, fully populated two-column frame. -/
def c9DF : DataFrame := ⟨[⟨"x", true, [.num 1]⟩, ⟨"y", false, [.str "a"]⟩]⟩

/-- A frame whose single expected feature is a numeric column with only
missing values. -/
def c3NullDF : DataFrame := ⟨[⟨"x", true, [.null]⟩]⟩

/-- A frame with one numeric column (three values, one null) and one text
column (one null), aligned to its own features. -/
def c3FillDF : DataFrame :=
  ⟨[⟨"x", true, [.num 1, .null, .num 3, .num 7]⟩, ⟨"y", false, [.str "a", .null]⟩]⟩

/-- A secret that carries neither username nor password. -/
def c5Blob : SecretBlob := ⟨none, none, none⟩

/-- The credentials resolved from that secret: all three keys present, with
empty username and password. -/
def c5Creds : List (String × String) :=
  getKafkaCredentials (some "arn:aws:secretsmanager:us-east-1:secret") (.ok (some c5Blob))

/-- A managed AWS broker bootstrap string. -/
def c5Bootstrap : String := "b-1.mycluster.kafka.us-east-1.amazonaws.com:9098"

/-- The loaded frame of one record: a feature column plus the two provenance
columns added by the loader. -/
def c6InputDF : DataFrame :=
  ⟨[⟨"f1", true, [.num 1]⟩,
    ⟨"source_file", false, [.str "data/part-0.parquet"]⟩,
    ⟨"ingestion_time", false, [.str "2024-01-01T00:00:00"]⟩]⟩

/-- The corresponding prediction row after alignment to `["f1"]` and
`generate_predictions`: the five bookkeeping columns are present, the
provenance columns are gone. -/
def c6PredRow : Row :=
  [("f1", .num 1), ("prediction", .num 0),
   ("prediction_timestamp", .str "2024-01-01T00:05:00"),
   ("model_name", .str "poem-model"), ("model_version", .str "1"),
   ("model_stage", .str "Production")]

/-- A fully populated environment configuration. -/
def c7Env : Env :=
  ⟨some "http://mlflow:5000", some "s3://bucket/daily/", some "broker:9092",
   some "predictions"⟩

/-- An object last modified outside the queried window. -/
def c7OldObject : S3Object := ⟨"daily/old.parquet", 100⟩

/-- A fully populated environment configuration for the constructor-mismatch
witness. -/
def c10Env : Env :=
  ⟨some "http://mlflow:5000", some "s3://bucket/input/", some "kafka:9092",
   some "poem-predictions"⟩

/-! ## Batching lemmas -/

theorem chunksGo_flatten (B : ℕ) (hB : 1 ≤ B) :
    ∀ (fuel : ℕ) (l : List α), l.length ≤ fuel → (chunksGo B fuel l).flatten = l := by
  intro fuel
  induction fuel with
  | zero =>
    intro l hl
    have : l = [] := List.eq_nil_of_length_eq_zero (Nat.le_zero.mp hl)
    subst this; rfl
  | succ f ih =>
    intro l hl
    match l with
    | [] => rfl
    | x :: xs =>
      have hd : ((x :: xs).drop B).length ≤ f := by
        simp only [List.length_drop, List.length_cons]
        simp only [List.length_cons] at hl
        omega
      simp only [chunksGo, List.flatten_cons, ih _ hd, List.take_append_drop]

theorem ceil_div_step (B m : ℕ) (hB : 1 ≤ B) (hm : 1 ≤ m) :
    (m + B - 1) / B = (m - B + B - 1) / B + 1 := by
  rcases le_or_lt B m with h | h
  · have h1 : m - B + B - 1 = m - 1 := by omega
    have h2 : m + B - 1 = (m - 1) + B := by omega
    rw [h1, h2, Nat.add_div_right _ (by omega)]
  · have h1 : m - B + B - 1 = B - 1 := by omega
    have h0 : (B - 1) / B = 0 := Nat.div_eq_of_lt (by omega)
    rw [h1, h0]
    have h2 : m + B - 1 < (1 + 1) * B := by omega
    have h3 : 1 * B ≤ m + B - 1 := by omega
    rw [Nat.div_eq_of_lt_le h3 h2]

theorem chunksGo_length (B : ℕ) (hB : 1 ≤ B) :
    ∀ (fuel : ℕ) (l : List α), l.length ≤ fuel →
      (chunksGo B fuel l).length = (l.length + B - 1) / B := by
  intro fuel
  induction fuel with
  | zero =>
    intro l hl
    have : l = [] := List.eq_nil_of_length_eq_zero (Nat.le_zero.mp hl)
    subst this
    simp only [chunksGo, List.length_nil]
    exact (Nat.div_eq_of_lt (by omega)).symm
  | succ f ih =>
    intro l hl
    match l with
    | [] =>
      simp only [chunksGo, List.length_nil]
      exact (Nat.div_eq_of_lt (by omega)).symm
    | x :: xs =>
      have hd : ((x :: xs).drop B).length ≤ f := by
        simp only [List.length_drop, List.length_cons]
        simp only [List.length_cons] at hl
        omega
      simp only [chunksGo, List.length_cons, ih _ hd, List.length_drop]
      rw [ceil_div_step B (xs.length + 1) hB (by omega)]

theorem chunks_flatten (B : ℕ) (hB : 1 ≤ B) (l : List α) : (chunks B l).flatten = l := by
  unfold chunks
  rw [if_neg (by omega)]
  exact chunksGo_flatten B hB l.length l le_rfl

theorem chunks_length (B : ℕ) (hB : 1 ≤ B) (l : List α) :
    (chunks B l).length = (l.length + B - 1) / B := by
  unfold chunks
  rw [if_neg (by omega)]
  exact chunksGo_length B hB l.length l le_rfl

/-- C1: for every sequence of N PredictionRecords and every batch bound
B = max_records_per_batch (B ≥ 1), `batch_process_and_send_to_kafka`
partitions the sequence into exactly ⌈N/B⌉ contiguous batches, reports
`batches_processed` = ⌈N/B⌉, and the concatenation of the batches in
processing order equals the original record sequence in order. -/
theorem batch_partition_ceil_and_concat (rows : List Row) (B : ℕ) (hB : 1 ≤ B)
    (build : ℕ → Row → Except Unit KafkaMessage) (deliver : KafkaMessage → Bool) :
    (chunks B rows).length = rows.length ⌈/⌉ B
    ∧ (batchProcessAndSendToKafka build deliver B rows).batches_processed = rows.length ⌈/⌉ B
    ∧ (chunks B rows).flatten = rows := by
  refine ⟨?_, ?_, chunks_flatten B hB rows⟩
  · rw [Nat.ceilDiv_eq_add_pred_div]
    exact chunks_length B hB rows
  · rw [Nat.ceilDiv_eq_add_pred_div]
    rfl

theorem batch_partition_ceil_and_concat_witness :
    1 ≤ 2
    ∧ (chunks 2 c1Rows).length = c1Rows.length ⌈/⌉ 2
    ∧ (batchProcessAndSendToKafka buildKafkaMessage (fun _ => true) 2 c1Rows).batches_processed
        = c1Rows.length ⌈/⌉ 2
    ∧ (chunks 2 c1Rows).flatten = c1Rows :=
  ⟨by decide,
   (batch_partition_ceil_and_concat c1Rows 2 (by decide) buildKafkaMessage (fun _ => true)).1,
   (batch_partition_ceil_and_concat c1Rows 2 (by decide) buildKafkaMessage (fun _ => true)).2.1,
   (batch_partition_ceil_and_concat c1Rows 2 (by decide) buildKafkaMessage (fun _ => true)).2.2⟩

/-! ## Counting lemmas for the send tallies -/

theorem length_filterMap_eq_length_filter (f : α → Option β) (l : List α) :
    (l.filterMap f).length = (l.filter (fun a => (f a).isSome)).length := by
  induction l with
  | nil => rfl
  | cons a l ih =>
    cases h : f a <;>
      simp [List.filterMap_cons, List.filter_cons, h, ih]

theorem length_filter_add_length_filter_not (p : α → Bool) (l : List α) :
    (l.filter p).length + (l.filter (fun a => !p a)).length = l.length := by
  induction l with
  | nil => rfl
  | cons a l ih =>
    cases h : p a <;> simp [List.filter_cons, h, ← ih] <;> omega

theorem sum_enumFrom_filterMap (q : α → Bool) (f : ℕ → α → Option β)
    (hf : ∀ k a, (f k a).isSome = q a) (LB : List (List α)) :
    ∀ s : ℕ,
      ((List.enumFrom s LB).map (fun kb => (kb.2.filterMap (f kb.1)).length)).sum
        = (LB.flatten.filter q).length := by
  induction LB with
  | nil => intro s; rfl
  | cons b bs ih =>
    intro s
    simp only [List.enumFrom, List.map_cons, List.sum_cons, List.flatten_cons,
      List.filter_append, List.length_append, ih]
    rw [length_filterMap_eq_length_filter]
    congr 2
    exact List.filter_congr (fun a _ => hf s a)

theorem sum_enumFrom_sub (q : α → Bool) (f : ℕ → α → Option β)
    (hf : ∀ k a, (f k a).isSome = q a) (LB : List (List α)) :
    ∀ s : ℕ,
      ((List.enumFrom s LB).map
          (fun kb => kb.2.length - (kb.2.filterMap (f kb.1)).length)).sum
        = (LB.flatten.filter (fun a => !q a)).length := by
  induction LB with
  | nil => intro s; rfl
  | cons b bs ih =>
    intro s
    simp only [List.enumFrom, List.map_cons, List.sum_cons, List.flatten_cons,
      List.filter_append, List.length_append, ih]
    congr 1
    rw [length_filterMap_eq_length_filter]
    have h1 := length_filter_add_length_filter_not q b
    have h2 : (b.filter (fun a => (f s a).isSome)).length = (b.filter q).length := by
      rw [List.filter_congr (fun a _ => hf s a)]
    rw [h2]
    omega

/-- The batch number only decorates the audit payload: whether a record's
message builds successfully does not depend on it. -/
theorem buildKafkaMessage_isOk_indep (k j : ℕ) (row : Row) :
    (buildKafkaMessage k row).toOption.isSome
      = (buildKafkaMessage j row).toOption.isSome := by
  simp only [buildKafkaMessage, bind, Except.bind]
  cases rowIndex row "prediction_timestamp"
  case error => rfl
  case ok =>
    dsimp only
    cases rowIndex row "model_name"
    case error => rfl
    case ok =>
      dsimp only
      cases rowIndex row "model_version"
      case error => rfl
      case ok =>
        dsimp only
        cases rowIndex row "model_stage"
        case error => rfl
        case ok =>
          dsimp only
          cases rowIndex row "prediction"
          case error => rfl
          case ok pv =>
            dsimp only
            cases floatConv pv
            case error => rfl
            case ok =>
              dsimp only
              cases seriesDrop row messageDropLabels
              case error => rfl
              case ok =>
                dsimp only
                cases optFloatField row "prediction_probability"
                case error => rfl
                case ok =>
                  dsimp only
                  cases optFloatField row "prediction_confidence"
                  case error => rfl
                  case ok => rfl

/-- C4: a failure while building one record's message is caught, counted in
the error tally, and does not prevent the remaining records of the batch from
being sent: with every message accepted by the transport, `successful_sends`
is the number of records whose message builds, `failed_sends` the number whose
build fails, they sum to the total, and `success_rate` is
successes / total (0 when the total is 0). -/
theorem per_record_failure_counted_not_fatal (deliver : KafkaMessage → Bool) (B : ℕ)
    (rows : List Row) (hB : 1 ≤ B) (hd : ∀ m, deliver m = true) :
    (batchProcessAndSendToKafka buildKafkaMessage deliver B rows).successful_sends
      = (rows.filter (fun row => (buildKafkaMessage 1 row).toOption.isSome)).length
    ∧ (batchProcessAndSendToKafka buildKafkaMessage deliver B rows).failed_sends
      = (rows.filter (fun row => !(buildKafkaMessage 1 row).toOption.isSome)).length
    ∧ (batchProcessAndSendToKafka buildKafkaMessage deliver B rows).successful_sends
        + (batchProcessAndSendToKafka buildKafkaMessage deliver B rows).failed_sends
      = rows.length
    ∧ (batchProcessAndSendToKafka buildKafkaMessage deliver B rows).success_rate
      = (if rows.length > 0
         then ((rows.filter
              (fun row => (buildKafkaMessage 1 row).toOption.isSome)).length : ℚ)
              / (rows.length : ℚ)
         else 0) := by
  have hq : ∀ (k : ℕ) (r : Row),
      ((buildKafkaMessage (k + 1) r).toOption).isSome
        = (buildKafkaMessage 1 r).toOption.isSome :=
    fun k r => buildKafkaMessage_isOk_indep (k + 1) 1 r
  have hS : ((chunks B rows).enum.map (fun kb =>
      sendBatchCount deliver
        (kb.2.filterMap (fun r => (buildKafkaMessage (kb.1 + 1) r).toOption)))).sum
      = (rows.filter (fun row => (buildKafkaMessage 1 row).toOption.isSome)).length := by
    have hmap : ((chunks B rows).enum.map (fun kb =>
        sendBatchCount deliver
          (kb.2.filterMap (fun r => (buildKafkaMessage (kb.1 + 1) r).toOption))))
        = ((chunks B rows).enum.map (fun kb =>
          (kb.2.filterMap (fun r => (buildKafkaMessage (kb.1 + 1) r).toOption)).length)) := by
      apply List.map_congr_left
      intro kb _
      unfold sendBatchCount
      rw [List.filter_eq_self.mpr (fun m _ => hd m)]
    rw [hmap]
    have := sum_enumFrom_filterMap
      (fun row => (buildKafkaMessage 1 row).toOption.isSome)
      (fun k r => (buildKafkaMessage (k + 1) r).toOption) hq (chunks B rows) 0
    rw [show List.enum (chunks B rows) = List.enumFrom 0 (chunks B rows) from rfl, this,
      chunks_flatten B hB]
  have hE : ((chunks B rows).enum.map (fun kb =>
      kb.2.length
        - (kb.2.filterMap (fun r => (buildKafkaMessage (kb.1 + 1) r).toOption)).length)).sum
      = (rows.filter (fun row => !(buildKafkaMessage 1 row).toOption.isSome)).length := by
    have := sum_enumFrom_sub
      (fun row => (buildKafkaMessage 1 row).toOption.isSome)
      (fun k r => (buildKafkaMessage (k + 1) r).toOption) hq (chunks B rows) 0
    rw [show List.enum (chunks B rows) = List.enumFrom 0 (chunks B rows) from rfl, this,
      chunks_flatten B hB]
  have h1 : (batchProcessAndSendToKafka buildKafkaMessage deliver B rows).successful_sends
      = (rows.filter (fun row => (buildKafkaMessage 1 row).toOption.isSome)).length := hS
  have h2 : (batchProcessAndSendToKafka buildKafkaMessage deliver B rows).failed_sends
      = (rows.filter (fun row => !(buildKafkaMessage 1 row).toOption.isSome)).length := hE
  refine ⟨h1, h2, ?_, ?_⟩
  · rw [h1, h2]
    exact length_filter_add_length_filter_not _ rows
  · have h4 : (batchProcessAndSendToKafka buildKafkaMessage deliver B rows).success_rate
        = (if rows.length > 0
           then ((batchProcessAndSendToKafka buildKafkaMessage deliver B rows).successful_sends : ℚ)
                / (rows.length : ℚ)
           else 0) := rfl
    rw [h4, h1]

theorem per_record_failure_counted_not_fatal_witness :
    1 ≤ 10000
    ∧ (batchProcessAndSendToKafka buildKafkaMessage (fun _ => true) 10000 c4Rows).successful_sends
        = 99
    ∧ (batchProcessAndSendToKafka buildKafkaMessage (fun _ => true) 10000 c4Rows).failed_sends
        = 1
    ∧ (batchProcessAndSendToKafka buildKafkaMessage (fun _ => true) 10000 c4Rows).success_rate
        = 99 / 100 := by
  obtain ⟨h1, h2, _, h4⟩ :=
    per_record_failure_counted_not_fatal (fun _ => true) 10000 c4Rows (by decide)
      (fun m => rfl)
  have hgood : (buildKafkaMessage 1 c4GoodRow).toOption.isSome = true := by decide
  have hbad : (buildKafkaMessage 1 c4BadRow).toOption.isSome = false := by decide
  have hflen : (c4Rows.filter
      (fun row => (buildKafkaMessage 1 row).toOption.isSome)).length = 99 := by
    rw [show c4Rows = List.replicate 99 c4GoodRow ++ [c4BadRow] from rfl, List.filter_append]
    rw [List.filter_eq_self.mpr
      (fun a ha => by rw [(List.eq_of_mem_replicate ha : a = c4GoodRow)]; exact hgood)]
    rw [show (List.filter (fun row => (buildKafkaMessage 1 row).toOption.isSome) [c4BadRow])
        = [] from by decide]
    simp
  have hflen2 : (c4Rows.filter
      (fun row => !(buildKafkaMessage 1 row).toOption.isSome)).length = 1 := by
    rw [show c4Rows = List.replicate 99 c4GoodRow ++ [c4BadRow] from rfl, List.filter_append]
    rw [List.filter_eq_nil_iff.mpr
      (fun a ha => by rw [(List.eq_of_mem_replicate ha : a = c4GoodRow)]; simp [hgood])]
    rw [show (List.filter (fun row => !(buildKafkaMessage 1 row).toOption.isSome) [c4BadRow])
        = [c4BadRow] from by decide]
    simp
  have hlen : c4Rows.length = 100 := by
    simp [c4Rows]
  refine ⟨by decide, ?_, ?_, ?_⟩
  · rw [h1, hflen]
  · rw [h2, hflen2]
  · rw [h4, hflen, hlen]
    norm_num

/-- C2: with a two-column probability matrix, `generate_predictions` sets
`prediction_probability` to the column-index-1 probability,
`prediction_confidence` to the maximum of the two, `high_confidence` to
confidence > 0.8 and `above_threshold` to probability > prediction_threshold
(whose CLI default is 0.5); with more than two columns only the row-maximum
confidence and the per-class `prob_<label>` columns are added and neither flag
is set. -/
theorem generate_predictions_probability_fields (a b thr : ℚ)
    (names : Option (List String)) (p : List ℚ) :
    generateRowProbFields (some [a, b]) names thr =
      { prediction_probability := some b
        prediction_confidence := some (max a b)
        high_confidence := some (decide (max a b > (8 : ℚ) / 10))
        above_threshold := some (decide (b > thr))
        class_probs := [] }
    ∧ (2 < p.length →
        (generateRowProbFields (some p) names thr).prediction_probability = none
        ∧ (generateRowProbFields (some p) names thr).prediction_confidence = rowMax p
        ∧ (generateRowProbFields (some p) names thr).high_confidence = none
        ∧ (generateRowProbFields (some p) names thr).above_threshold = none
        ∧ (generateRowProbFields (some p) names thr).class_probs = (names.getD []).zip p)
    ∧ predictionThresholdDefault = 5 / 10 := by
  refine ⟨?_, ?_, rfl⟩
  · simp [generateRowProbFields, rowMax]
  · intro hp
    have hne : p.length ≠ 2 := by omega
    simp [generateRowProbFields, hne]

theorem generate_predictions_probability_fields_witness :
    2 < ([(1 : ℚ)/10, 3/10, 6/10] : List ℚ).length
    ∧ generateRowProbFields (some [(9 : ℚ)/10, 1/10]) (some ["a", "b", "c"]) (5/10)
        = { prediction_probability := some (1/10)
            prediction_confidence := some (9/10)
            high_confidence := some true
            above_threshold := some false
            class_probs := [] }
    ∧ (generateRowProbFields (some [(1 : ℚ)/10, 3/10, 6/10])
        (some ["a", "b", "c"]) (5/10)).above_threshold = none := by
  have h := generate_predictions_probability_fields ((9 : ℚ)/10) (1/10) (5/10)
    (some ["a", "b", "c"]) [(1 : ℚ)/10, 3/10, 6/10]
  refine ⟨by decide, ?_, (h.2.1 (by decide)).2.2.2.1⟩
  rw [h.1]
  simp only [ProbOutputs.mk.injEq, Option.some.injEq]
  norm_num [max_def]

/-- C8: with an explicit model version, `load_model` resolves the URI
`models:/<name>/<version>` regardless of the configured stage; only without
an explicit version does it resolve by stage. -/
theorem explicit_version_takes_precedence (name stage otherStage v : String) :
    modelUriForLoad name stage (some v) = "models:/" ++ name ++ "/" ++ v
    ∧ modelUriForLoad name stage (some v) = modelUriForLoad name otherStage (some v)
    ∧ modelUriForLoad name stage none = "models:/" ++ name ++ "/" ++ stage :=
  ⟨rfl, rfl, rfl⟩

/-- Re-selecting a frame's own (distinct) column names returns its columns
unchanged. -/
theorem findCol_names_map (cols : List Column) (hnd : (cols.map Column.name).Nodup) (n : ℕ) :
    (cols.map Column.name).map
      (fun f => ((cols.find? (fun c => c.name == f)).getD (zeroCol f n))) = cols := by
  induction cols with
  | nil => rfl
  | cons c cs ih =>
    simp only [List.map_cons, List.nodup_cons] at hnd
    obtain ⟨hnotin, hnd2⟩ := hnd
    simp only [List.map_cons]
    congr 1
    · rw [List.find?_cons_of_pos _ (by simp)]
      rfl
    · have hstep : ∀ f ∈ cs.map Column.name,
          (((c :: cs).find? (fun c2 => c2.name == f)).getD (zeroCol f n))
            = ((cs.find? (fun c2 => c2.name == f)).getD (zeroCol f n)) := by
        intro f hf
        have hne : c.name ≠ f := fun h => hnotin (h.symm ▸ hf)
        rw [List.find?_cons_of_neg _ (by simp [hne])]
      rw [List.map_congr_left hstep, ih hnd2]

/-- C9: preprocessing is idempotent — on a Dataset already aligned to the
expected features (distinct names) and containing no missing values,
`preprocess_data` returns its input unchanged. -/
theorem preprocess_idempotent_on_aligned (df : DataFrame) (F : List String)
    (hnames : df.cols.map Column.name = F) (hnd : F.Nodup)
    (hnull : df.anyNull = false) :
    preprocessData (some F) df = df := by
  obtain ⟨cols⟩ := df
  subst hnames
  have hfill : fillMissing ⟨cols⟩ = ⟨cols⟩ := by
    simp [fillMissing, hnull]
  cases cols with
  | nil => simpa [preprocessData] using hfill
  | cons c cs =>
    have halign : alignColumns (c.name :: cs.map Column.name) ⟨c :: cs⟩ = ⟨c :: cs⟩ := by
      have h := findCol_names_map (c :: cs) hnd (DataFrame.nrows ⟨c :: cs⟩)
      simpa [alignColumns, findCol] using h
    simp only [preprocessData, List.map_cons, List.isEmpty_cons, Bool.false_eq_true,
      if_false, halign]
    exact hfill

theorem preprocess_idempotent_on_aligned_witness :
    c9DF.cols.map Column.name = ["x", "y"]
    ∧ (["x", "y"] : List String).Nodup
    ∧ c9DF.anyNull = false
    ∧ preprocessData (some ["x", "y"]) c9DF = c9DF :=
  ⟨by decide, by decide, by decide,
   preprocess_idempotent_on_aligned c9DF ["x", "y"] (by decide) (by decide) (by decide)⟩

/-! ## Preprocessing lemmas -/

theorem length_insertSorted (x : ℚ) (l : List ℚ) :
    (insertSorted x l).length = l.length + 1 := by
  induction l with
  | nil => rfl
  | cons y ys ih =>
    simp only [insertSorted]
    split <;> simp [ih]

theorem length_sortQ (l : List ℚ) : (sortQ l).length = l.length := by
  induction l with
  | nil => rfl
  | cons x xs ih => simp [sortQ, length_insertSorted, ih]

/-- The median of a nonempty value list is defined. -/
theorem medianQ_isSome (l : List ℚ) (hl : l ≠ []) : (medianQ l).isSome = true := by
  unfold medianQ
  have hn : (sortQ l).length = l.length := length_sortQ l
  have hpos : 0 < l.length := List.length_pos.mpr hl
  rw [if_neg (by omega)]
  by_cases hodd : (sortQ l).length % 2 = 1
  · rw [if_pos hodd]
    rw [List.getElem?_eq_getElem (by omega : (sortQ l).length / 2 < (sortQ l).length)]
    rfl
  · rw [if_neg hodd]
    rw [List.getElem?_eq_getElem (by omega : (sortQ l).length / 2 - 1 < (sortQ l).length),
      List.getElem?_eq_getElem (by omega : (sortQ l).length / 2 < (sortQ l).length)]
    rfl

/-- Filling with a non-missing value leaves no missing cell. -/
theorem isNullCell_fillCell (fill w : CellValue) (hf : isNullCell fill = false) :
    isNullCell (fillCell fill w) = false := by
  unfold fillCell
  split
  · exact hf
  · rename_i hw
    simpa using hw

theorem fillColumn_name (c : Column) : (fillColumn c).name = c.name := by
  unfold fillColumn
  split
  · cases medianQ (colNums c) <;> rfl
  · rfl

/-- A frame without any missing value has none in any column. -/
theorem anyNull_false_no_null (df : DataFrame) (h : df.anyNull = false) :
    ∀ c ∈ df.cols, ∀ v ∈ c.entries, isNullCell v = false := by
  intro c hc v hv
  by_contra hne
  have hvt : isNullCell v = true := by simpa using hne
  have : df.anyNull = true := by
    simp only [DataFrame.anyNull, List.any_eq_true]
    exact ⟨c, hc, v, hv, hvt⟩
  simp [this] at h

/-- After `fillColumn`, a column has no missing entries, provided it is
non-numeric, or numeric with some numeric value, or numeric without any
missing entry. -/
theorem fillColumn_no_null (c : Column)
    (h : c.numeric = true →
      (∃ q : ℚ, CellValue.num q ∈ c.entries) ∨ (∀ v ∈ c.entries, isNullCell v = false)) :
    ∀ v ∈ (fillColumn c).entries, isNullCell v = false := by
  intro v hv
  by_cases hcn : c.numeric = true
  · rcases h hcn with ⟨q, hq⟩ | hall
    · have hmem : q ∈ colNums c := by
        simp only [colNums, List.mem_filterMap]
        exact ⟨.num q, hq, rfl⟩
      have hne : colNums c ≠ [] := fun hnil => by simp [hnil] at hmem
      obtain ⟨m, hm⟩ := Option.isSome_iff_exists.mp (medianQ_isSome _ hne)
      have hfc : fillColumn c = { c with entries := c.entries.map (fillCell (.num m)) } := by
        simp [fillColumn, hcn, hm]
      rw [hfc] at hv
      simp only [List.mem_map] at hv
      obtain ⟨w, _, hw⟩ := hv
      exact hw ▸ isNullCell_fillCell (.num m) w rfl
    · cases hmed : medianQ (colNums c) with
      | some m =>
        have hfc : fillColumn c = { c with entries := c.entries.map (fillCell (.num m)) } := by
          simp [fillColumn, hcn, hmed]
        rw [hfc] at hv
        simp only [List.mem_map] at hv
        obtain ⟨w, _, hw⟩ := hv
        exact hw ▸ isNullCell_fillCell (.num m) w rfl
      | none =>
        have hfc : fillColumn c = c := by simp [fillColumn, hcn, hmed]
        rw [hfc] at hv
        exact hall v hv
  · have hcn2 : c.numeric = false := by simpa using hcn
    have hfc : fillColumn c = { c with entries := c.entries.map (fillCell (.str "Unknown")) } := by
      simp [fillColumn, hcn2]
    rw [hfc] at hv
    simp only [List.mem_map] at hv
    obtain ⟨w, _, hw⟩ := hv
    exact hw ▸ isNullCell_fillCell (.str "Unknown") w rfl

/-- Filling preserves the column names. -/
theorem fillMissing_names (d : DataFrame) :
    (fillMissing d).cols.map Column.name = d.cols.map Column.name := by
  unfold fillMissing
  split
  · simp only [List.map_map]
    exact List.map_congr_left (fun c _ => fillColumn_name c)
  · rfl

/-- The aligned frame's column names are exactly the expected features. -/
theorem alignColumns_names (fs : List String) (df : DataFrame) :
    (alignColumns fs df).cols.map Column.name = fs := by
  simp only [alignColumns, List.map_map]
  have hpt : ∀ f ∈ fs, (Column.name ∘ fun f => (findCol df f).getD (zeroCol f df.nrows)) f = f := by
    intro f hf
    cases hfind : findCol df f with
    | some c0 =>
      have hp := List.find?_some hfind
      simp only [Function.comp, hfind, Option.getD_some]
      exact beq_iff_eq.mp hp
    | none => simp [Function.comp, hfind, zeroCol]
  rw [List.map_congr_left hpt]
  exact List.map_id' fs

/-- Every column of the aligned frame is a column of the input or a fresh
zero column. -/
theorem mem_alignColumns (fs : List String) (df : DataFrame) (c : Column)
    (hc : c ∈ (alignColumns fs df).cols) :
    c ∈ df.cols ∨ ∃ f, c = zeroCol f df.nrows := by
  simp only [alignColumns, List.mem_map] at hc
  obtain ⟨f, _, hfc⟩ := hc
  cases hfind : findCol df f with
  | some c0 =>
    left
    rw [hfind, Option.getD_some] at hfc
    exact hfc ▸ List.mem_of_find?_eq_some hfind
  | none =>
    right
    rw [hfind, Option.getD_none] at hfc
    exact ⟨f, hfc.symm⟩

/-- C3 (amended): for a Dataset and known expected features F (nonempty),
`preprocess_data` returns a frame whose columns are exactly F in order
(missing ones added as zeros, others dropped), and — provided every numeric
column of the input has some numeric value or no missing one — the result has
no missing value at all: numeric nulls are filled with the column median,
non-numeric nulls with "Unknown".  (A nonempty all-null numeric column stays
unfilled, since its median is NaN and `fillna(NaN)` is a no-op.) -/
theorem preprocess_aligns_and_fills (df : DataFrame) (F : List String) (hF : F ≠ [])
    (hnum : ∀ c ∈ df.cols, c.numeric = true →
        (∃ q : ℚ, CellValue.num q ∈ c.entries) ∨ (∀ v ∈ c.entries, isNullCell v = false)) :
    (preprocessData (some F) df).cols.map Column.name = F
    ∧ ∀ c ∈ (preprocessData (some F) df).cols, ∀ v ∈ c.entries, isNullCell v = false := by
  have hFe : F.isEmpty = false := by simpa [List.isEmpty_iff] using hF
  have hpre : preprocessData (some F) df = fillMissing (alignColumns F df) := by
    simp [preprocessData, hFe]
  have hnum1 : ∀ c ∈ (alignColumns F df).cols, c.numeric = true →
      (∃ q : ℚ, CellValue.num q ∈ c.entries) ∨ (∀ v ∈ c.entries, isNullCell v = false) := by
    intro c hc hcn
    rcases mem_alignColumns F df c hc with hmem | ⟨f, hzero⟩
    · exact hnum c hmem hcn
    · subst hzero
      cases hn : df.nrows with
      | zero =>
        right
        intro v hv
        simp [zeroCol, hn] at hv
      | succ k =>
        left
        exact ⟨0, by simp [zeroCol, hn, List.mem_replicate]⟩
  constructor
  · rw [hpre, fillMissing_names, alignColumns_names]
  · rw [hpre]
    intro c hc v hv
    unfold fillMissing at hc
    split at hc
    · simp only [List.mem_map] at hc
      obtain ⟨c0, hc0, hcc⟩ := hc
      subst hcc
      exact fillColumn_no_null c0 (hnum1 c0 hc0) v hv
    · rename_i hAn
      exact anyNull_false_no_null _ (by simpa using hAn) c hc v hv

/-- C3 counterexample: on a numeric column consisting only of missing values,
preprocessing aligns the columns but leaves a missing numeric value in the
result, because the column median of an all-null column is NaN and
`fillna(NaN)` fills nothing. -/
theorem preprocess_allnull_numeric_counterexample :
    (preprocessData (some ["x"]) c3NullDF).cols.map Column.name = ["x"]
    ∧ ∃ c ∈ (preprocessData (some ["x"]) c3NullDF).cols,
        c.numeric = true ∧ CellValue.null ∈ c.entries := by
  decide

theorem preprocess_aligns_and_fills_witness :
    (["x", "y"] : List String) ≠ []
    ∧ (preprocessData (some ["x", "y"]) c3FillDF).cols.map Column.name = ["x", "y"]
    ∧ ∀ c ∈ (preprocessData (some ["x", "y"]) c3FillDF).cols, ∀ v ∈ c.entries,
        isNullCell v = false := by
  have hn : ∀ c ∈ c3FillDF.cols, c.numeric = true →
      (∃ q : ℚ, CellValue.num q ∈ c.entries) ∨ (∀ v ∈ c.entries, isNullCell v = false) := by
    intro c hc hcn
    have hc2 : c = (⟨"x", true, [.num 1, .null, .num 3, .num 7]⟩ : Column)
        ∨ c = (⟨"y", false, [.str "a", .null]⟩ : Column) := by
      simpa [c3FillDF] using hc
    rcases hc2 with rfl | rfl
    · exact Or.inl ⟨1, by simp⟩
    · simp at hcn
  have h := preprocess_aligns_and_fills c3FillDF ["x", "y"] (by decide) hn
  exact ⟨by decide, h.1, h.2⟩

/-! ## Security configuration claims -/

/-- C5 (amended): the producer's security configuration is chosen by key
presence, not by credential content — a non-empty Credentials dict containing
a `username` key (even with an empty value) selects SASL_SSL/PLAIN (and setup
raises when the `password` key is missing); otherwise a bootstrap string
containing `amazonaws.com` selects SASL_SSL with the IAM mechanism; otherwise
PLAINTEXT.  Credentials resolved from a configured secret with a parsed
SecretString always contain the `username` key, so they always select PLAIN. -/
theorem security_choice_amended (creds : List (String × String)) (bootstrap : String) :
    (creds ≠ [] → (credsLookup creds "username").isSome →
      ∀ pw, credsLookup creds "password" = some pw →
        setupProducerSecurity creds bootstrap
          = .ok (.saslSslPlain ((credsLookup creds "username").getD "") pw
              (credsLookup creds "ssl_ca_location")))
    ∧ (creds ≠ [] → (credsLookup creds "username").isSome →
        credsLookup creds "password" = none →
        setupProducerSecurity creds bootstrap = .error ())
    ∧ ((creds = [] ∨ credsLookup creds "username" = none) →
        containsSubstr bootstrap "amazonaws.com" = true →
        setupProducerSecurity creds bootstrap = .ok .saslSslIam)
    ∧ ((creds = [] ∨ credsLookup creds "username" = none) →
        containsSubstr bootstrap "amazonaws.com" = false →
        setupProducerSecurity creds bootstrap = .ok .plaintext)
    ∧ (∀ arn blob,
        getKafkaCredentials (some arn) (.ok (some blob)) ≠ []
        ∧ (credsLookup (getKafkaCredentials (some arn) (.ok (some blob)))
            "username").isSome) := by
  refine ⟨?_, ?_, ?_, ?_, ?_⟩
  · intro h1 h2 pw h3
    simp [setupProducerSecurity, h1, h2, h3]
  · intro h1 h2 h3
    simp [setupProducerSecurity, h1, h2, h3]
  · intro h1 h2
    have hneg : ¬(creds ≠ [] ∧ (credsLookup creds "username").isSome) := by
      rcases h1 with h | h <;> simp [h]
    simp [setupProducerSecurity, hneg, h2]
  · intro h1 h2
    have hneg : ¬(creds ≠ [] ∧ (credsLookup creds "username").isSome) := by
      rcases h1 with h | h <;> simp [h]
    simp [setupProducerSecurity, hneg, h2]
  · intro arn blob
    constructor
    · simp [getKafkaCredentials]
    · simp [getKafkaCredentials, credsLookup]

/-- C5 counterexample: credentials resolved from a secret without explicit
username/password, against an `amazonaws.com` bootstrap.  The claim's
trichotomy predicts the IAM mechanism (no explicit credentials, managed
broker); the code selects SASL_SSL/PLAIN with empty username and password,
because it only tests for the presence of the `username` key. -/
theorem security_choice_counterexample :
    specProvidesExplicitUserPass c5Creds = false
    ∧ containsSubstr c5Bootstrap "amazonaws.com" = true
    ∧ setupProducerSecurity c5Creds c5Bootstrap
        = .ok (.saslSslPlain "" "" (some "/etc/ssl/certs/ca-certificates.crt"))
    ∧ setupProducerSecurity c5Creds c5Bootstrap ≠ .ok .saslSslIam := by
  decide

theorem security_choice_amended_witness :
    setupProducerSecurity [("username", "u"), ("password", "p")] "localhost:9092"
        = .ok (.saslSslPlain "u" "p" none)
    ∧ setupProducerSecurity [] "b-1.kafka.us-east-1.amazonaws.com:9098" = .ok .saslSslIam
    ∧ setupProducerSecurity [] "localhost:9092" = .ok .plaintext := by
  have h1 := (security_choice_amended [("username", "u"), ("password", "p")] "localhost:9092").1
  have h3 := (security_choice_amended ([] : List (String × String))
    "b-1.kafka.us-east-1.amazonaws.com:9098").2.2.1
  have h4 := (security_choice_amended ([] : List (String × String)) "localhost:9092").2.2.2.1
  refine ⟨?_, h3 (Or.inl rfl) (by decide), h4 (Or.inl rfl) (by decide)⟩
  have := h1 (by decide) (by decide) "p" (by decide)
  rw [this]
  decide

/-! ## Provenance and `main` control-flow claims -/

/-- C6: with known expected features, `preprocess_data` does not retain the
provenance columns — `df = df[expected_features]` drops `source_file` and
`ingestion_time` — and the publisher's `row.drop([..., 'source_file',
'ingestion_time'])` then raises `KeyError` for every record, so no message
(with or without its audit fields) is ever built: every record lands in the
error tally. -/
theorem provenance_dropped_message_build_fails :
    (preprocessData (some ["f1"]) c6InputDF).cols.map Column.name = ["f1"]
    ∧ rowGet c6PredRow "source_file" = none
    ∧ rowGet c6PredRow "ingestion_time" = none
    ∧ buildKafkaMessage 1 c6PredRow = .error ()
    ∧ (batchProcessAndSendToKafka buildKafkaMessage (fun _ => true) 10000
        [c6PredRow]).successful_sends = 0
    ∧ (batchProcessAndSendToKafka buildKafkaMessage (fun _ => true) 10000
        [c6PredRow]).failed_sends = 1 := by
  decide

/-- C7: the Windowed Input Loader returns an empty frame (not an error) when
the listing has no contents or no object falls inside the window with the
expected extension — but the run does not exit 0: `main` raises a `TypeError`
while constructing `MLflowModelLoader` before the loader is ever invoked, and
exits 1 having published nothing. -/
theorem empty_window_loader_ok_but_main_exits_one :
    getS3InputDataForWindow none 1000 2000 "parquet" (fun _ => .ok [[("a", .num 1)]]) "T"
        = .ok []
    ∧ relevantObjects [c7OldObject] 1000 2000 "parquet" = []
    ∧ getS3InputDataForWindow (some [c7OldObject]) 1000 2000 "parquet"
        (fun _ => .ok [[("a", .num 1)]]) "T" = .ok []
    ∧ mainRun c7Env (.ok ()) (.ok .plaintext) (.ok []) (fun rows => .ok rows)
        (fun _ => ⟨0, 0, 0, 0, 0⟩) = ⟨1, false, 0⟩
    ∧ (mainRun c7Env (.ok ()) (.ok .plaintext) (.ok []) (fun rows => .ok rows)
        (fun _ => ⟨0, 0, 0, 0, 0⟩)).exitCode ≠ 0 := by
  refine ⟨rfl, by decide, by decide, by decide, by decide⟩

/-- C10: with every required environment variable set, `main` still fails
before any data is loaded or published: the keyword arguments it passes to
the `MLflowModelLoader` constructor are not accepted by the constructor's
parameter list, so the call raises `TypeError` and `main` exits 1. -/
theorem main_loader_constructor_mismatch (e : Env) (modelLoad : Except Unit Unit)
    (ps : Except Unit SecurityConfig) (dr : Except Unit (List Row))
    (pr : List Row → Except Unit (List Row)) (send : List Row → SendResults)
    (he : missingRequiredVars e = []) :
    callAccepts mlflowModelLoaderParams mlflowModelLoaderRequired scoreMainLoaderKwargs
        = false
    ∧ mainRun e modelLoad ps dr pr send = ⟨1, false, 0⟩ := by
  refine ⟨by decide, ?_⟩
  simp [mainRun, he,
    show callAccepts mlflowModelLoaderParams mlflowModelLoaderRequired scoreMainLoaderKwargs
        = false from by decide]

theorem main_loader_constructor_mismatch_witness :
    missingRequiredVars c10Env = []
    ∧ callAccepts mlflowModelLoaderParams mlflowModelLoaderRequired scoreMainLoaderKwargs
        = false
    ∧ mainRun c10Env (.ok ()) (.ok .plaintext) (.ok []) (fun rows => .ok rows)
        (fun _ => ⟨0, 0, 0, 0, 0⟩) = ⟨1, false, 0⟩ := by
  have h := main_loader_constructor_mismatch c10Env (.ok ()) (.ok .plaintext) (.ok [])
    (fun rows => .ok rows) (fun _ => ⟨0, 0, 0, 0, 0⟩) (by decide)
  exact ⟨by decide, h.1, h.2⟩
